import Mathlib

/-!
Verification of the real-time change-notification relay of the Monitor
repository: the SSE Notification Bridge (the stream route handler built on
LISTEN/NOTIFY), the client stream consumer hook `useRealtimeInventory`, and
the polling fallback hook `usePolling`.

The route handler, the hooks and the lazy pool initialisation are embedded
as explicit state machines; the JavaScript runtime's `JSON.parse` is an
external platform collaborator and is therefore a parameter of the bridge
semantics, while JavaScript object-literal spread (`{type: ..., ...payload}`)
is modelled faithfully by `spreadInto`.
-/

namespace Monitor

/-- JSON values, as produced by the platform's `JSON.parse`.  Objects keep
their fields in insertion order, as JavaScript objects do. -/
inductive Json where
  | null : Json
  | bool (b : Bool) : Json
  | num (n : Int) : Json
  | str (s : String) : Json
  | arr (elems : List Json) : Json
  | obj (fields : List (String × Json)) : Json

/-- JavaScript object assignment `o[k] = v`: an existing key keeps its
position and gets the new value; a new key is appended. -/
def setField (o : List (String × Json)) (k : String) (v : Json) :
    List (String × Json) :=
  if o.any (fun p => p.1 = k) then
    o.map (fun p => if p.1 = k then (k, v) else p)
  else o ++ [(k, v)]

/-- The own enumerable entries a value contributes under object spread:
objects spread their fields, arrays and strings their indexed elements,
primitives nothing. -/
def spreadEntries : Json → List (String × Json)
  | Json.obj fields => fields
  | Json.arr elems => elems.enum.map (fun p => (toString p.1, p.2))
  | Json.str s => s.data.enum.map (fun p => (toString p.1, Json.str (String.singleton p.2)))
  | _ => []

/-- JavaScript object-literal spread `{...base, ...extra-entries}`:
fold the entries into the base object by assignment. -/
def spreadInto (base : List (String × Json)) (entries : List (String × Json)) :
    List (String × Json) :=
  entries.foldl (fun acc p => setField acc p.1 p.2) base

/-- An event enqueued on a session's outbound SSE stream, identified by the
JSON object serialised into its `data:` line.  `connected` and `heartbeat`
carry the ISO timestamp string the handler embeds; `update` carries the full
body `{type: "inventory_update", ...payload}`. -/
inductive Event where
  | connected (timestamp : String) : Event
  | update (body : List (String × Json)) : Event
  | heartbeat (timestamp : String) : Event
  | errorEvent (message : String) : Event

/-- State of one Bridge stream session, as held by the closure of the route
handler's `start` callback: the `isControllerClosed` flag, whether the
heartbeat interval timer is currently scheduled, whether `client` is
non-null (the handler never nulls it during cleanup) and whether the
controller has been closed; plus instrumentation counting the UNLISTEN and
`client.release()` attempts and recording the enqueued events in order. -/
structure SessionState where
  isControllerClosed : Bool
  heartbeatActive : Bool
  clientPresent : Bool
  controllerClosed : Bool
  unlistenCalls : Nat
  releaseCalls : Nat
  emitted : List Event

/-- The session state right after a successful `start`: subscriber client
acquired and listening, the `connected` event already enqueued, heartbeat
interval scheduled. -/
def initSession (t0 : String) : SessionState :=
  { isControllerClosed := false
    heartbeatActive := true
    clientPresent := true
    controllerClosed := false
    unlistenCalls := 0
    releaseCalls := 0
    emitted := [Event.connected t0] }

/-- The externally triggered transitions of a live session: a channel
notification carrying `msg.payload` (absent/empty payloads are falsy), a
heartbeat interval tick carrying the timestamp it would stamp, the request
abort signal, a subscriber-connection error, and the connection `end`
event. -/
inductive BAction where
  | notify (payload : Option String) : BAction
  | heartbeatTick (timestamp : String) : BAction
  | abort : BAction
  | clientError : BAction
  | clientEnd : BAction

/-- Evaluation of `msg.payload ? JSON.parse(msg.payload) : {}` — a falsy
payload (absent or the empty string) yields the empty object without
parsing; otherwise the platform parse runs and `none` is the thrown
SyntaxError. -/
def parsedPayload (parse : String → Option Json) : Option String → Option Json
  | none => some (Json.obj [])
  | some s => if s = "" then some (Json.obj []) else parse s

/-- The body of the `cleanup` closure: when `client` is non-null it attempts
`UNLISTEN inventory_changes` and then, in the `finally`, `client.release()`;
every failure of either is caught and ignored, and `client` is left
non-null. -/
def cleanupRun (s : SessionState) : SessionState :=
  if s.clientPresent then
    { s with unlistenCalls := s.unlistenCalls + 1
             releaseCalls := s.releaseCalls + 1 }
  else s

/-- One transition of the session state machine, following the five handlers
installed by the route: the notification handler, the heartbeat interval
callback, the abort listener, the client error handler and the client end
handler. -/
def step (parse : String → Option Json) (s : SessionState) : BAction → SessionState
  | BAction.notify p =>
      if s.isControllerClosed then s
      else
        match parsedPayload parse p with
        | some j =>
            { s with emitted := s.emitted ++
                [Event.update (spreadInto [("type", Json.str "inventory_update")]
                  (spreadEntries j))] }
        | none => s
  | BAction.heartbeatTick t =>
      if s.heartbeatActive then
        if s.isControllerClosed then { s with heartbeatActive := false }
        else if s.controllerClosed then { s with heartbeatActive := false }
        else { s with emitted := s.emitted ++ [Event.heartbeat t] }
      else s
  | BAction.abort =>
      cleanupRun { s with isControllerClosed := true }
  | BAction.clientError =>
      let s1 := cleanupRun { s with heartbeatActive := false, isControllerClosed := true }
      { s1 with controllerClosed := true }
  | BAction.clientEnd =>
      { s with heartbeatActive := false, isControllerClosed := true }

/-- Run a session through a sequence of transitions. -/
def runSession (parse : String → Option Json) (s : SessionState)
    (acts : List BAction) : SessionState :=
  acts.foldl (step parse) s

/-- A concrete platform parse used to instantiate theorems: recognises two
payload strings, one well-formed channel message and everything else
malformed. -/
def parse0 : String → Option Json
  | "wf" => some (Json.obj [("operation", Json.str "INSERT"), ("id", Json.str "r1")])
  | _ => none

/-! ## Client stream consumer (`useRealtimeInventory`) -/

/-- Field lookup `message.type` on a parsed SSE message body: the value of
the first field named `k`. -/
def lookupField (body : List (String × Json)) (k : String) : Option Json :=
  (body.find? (fun p => p.1 = k)).map (fun p => p.2)

/-- Outcome of the `refetch` call's `fetch("/api/inventory")`: an ok
response carrying the parsed items, a non-ok response, or a thrown network
error (the latter two leave local state untouched). -/
inductive FetchResult (α : Type) where
  | ok (items : List α) : FetchResult α
  | notOk : FetchResult α
  | failed : FetchResult α

/-- State of the `useRealtimeInventory` hook: the local `items` snapshot,
the `isConnected` and `lastUpdate` states, whether `eventSourceRef.current`
is non-null and whether `reconnectTimeoutRef.current` holds a pending timer;
plus the `enabled` option and counters for EventSource constructions,
`close()` calls, `refetch` invocations and `onUpdate` callback
invocations. -/
structure RtState (α : Type) where
  items : List α
  isConnected : Bool
  lastUpdate : Option Nat
  hasEventSource : Bool
  reconnectPending : Bool
  enabled : Bool
  esCreated : Nat
  esClosed : Nat
  refetchCount : Nat
  onUpdateCalls : Nat

/-- The externally triggered transitions of the hook: the EventSource's
`onopen`, an `onmessage` delivering a parsed body together with the outcome
and time of the refetch it may trigger, `onerror`, the reconnect timeout
firing, and the `disconnect` control. -/
inductive CAction (α : Type) where
  | opened : CAction α
  | message (body : List (String × Json)) (r : FetchResult α) (t : Nat) : CAction α
  | errorFired : CAction α
  | timerFire : CAction α
  | disconnect : CAction α

/-- The `refetch` callback: on an ok response replace `items` wholesale with
the response data and stamp `lastUpdate`; a non-ok response or a thrown
fetch error leaves state unchanged (the error is only logged). -/
def refetch (s : RtState α) (r : FetchResult α) (t : Nat) : RtState α :=
  let s := { s with refetchCount := s.refetchCount + 1 }
  match r with
  | FetchResult.ok items => { s with items := items, lastUpdate := some t }
  | FetchResult.notOk => s
  | FetchResult.failed => s

/-- The `connect` callback: bail out when disabled or an EventSource already
exists; otherwise construct a new EventSource and store it in the ref. -/
def connect (s : RtState α) : RtState α :=
  if s.enabled then
    if s.hasEventSource then s
    else { s with hasEventSource := true, esCreated := s.esCreated + 1 }
  else s

/-- The `disconnect` callback: close and null the EventSource if present,
clear the reconnect timeout if pending, and set `isConnected` to false. -/
def disconnect (s : RtState α) : RtState α :=
  let s1 := if s.hasEventSource then
    { s with hasEventSource := false, esClosed := s.esClosed + 1 } else s
  let s2 := if s1.reconnectPending then { s1 with reconnectPending := false } else s1
  { s2 with isConnected := false }

/-- One transition of the hook, following the `onopen`, `onmessage` and
`onerror` handlers, the 5-second reconnect timeout callback, and
`disconnect`.  EventSource handlers only fire while the source exists. -/
def cstep (s : RtState α) : CAction α → RtState α
  | CAction.opened =>
      if s.hasEventSource then
        { s with isConnected := true, reconnectPending := false }
      else s
  | CAction.message body r t =>
      if s.hasEventSource then
        match lookupField body "type" with
        | some (Json.str "connected") => { s with isConnected := true }
        | some (Json.str "inventory_update") =>
            let s1 := refetch s r t
            { s1 with onUpdateCalls := s1.onUpdateCalls + 1 }
        | _ => s
      else s
  | CAction.errorFired =>
      if s.hasEventSource then
        { s with isConnected := false
                 hasEventSource := false
                 esClosed := s.esClosed + 1
                 reconnectPending := true }
      else s
  | CAction.timerFire =>
      if s.reconnectPending then connect { s with reconnectPending := false }
      else s
  | CAction.disconnect => disconnect s

/-! ## Polling fallback consumer (`usePolling`) -/

/-- State of the `usePolling` hook: `data`, `isLoading`, `error`,
`lastUpdate` and `isPolling` states, whether the interval timer is
scheduled, the mounted flag, and counters for the `onUpdate` and `onError`
callbacks. -/
structure PollState (α : Type) where
  data : α
  isLoading : Bool
  error : Option String
  lastUpdate : Option Nat
  isPolling : Bool
  intervalActive : Bool
  isMounted : Bool
  onUpdateCalls : Nat
  onErrorCalls : Nat

/-- The hook's `refetch`: bail out when unmounted; otherwise set loading and
clear `error`, then either store the fetched data, stamp `lastUpdate` and
fire `onUpdate`, or capture the error and fire `onError`; finally clear
loading.  The interval timer is never touched. -/
def pollRefetch (s : PollState α) (outcome : Except String α) (t : Nat) :
    PollState α :=
  if s.isMounted then
    let s1 := { s with isLoading := true, error := none }
    match outcome with
    | Except.ok v =>
        { s1 with data := v, lastUpdate := some t
                  onUpdateCalls := s1.onUpdateCalls + 1, isLoading := false }
    | Except.error e =>
        { s1 with error := some e
                  onErrorCalls := s1.onErrorCalls + 1, isLoading := false }
  else s

/-- The hook's `stopPolling`: set `isPolling` to false and clear the
interval timer if one is scheduled. -/
def stopPolling (s : PollState α) : PollState α :=
  { s with isPolling := false, intervalActive := false }

/-! ## Lazy SSE pool initialisation (module scope of the stream route) -/

/-- The configuration of the dedicated SSE `Pool` as constructed in the
route module. -/
structure Pool where
  connectionString : String
  connectionTimeoutMillis : Nat
  idleTimeoutMillis : Nat
  maxClients : Nat

/-- The route module's only piece of module-level mutable state:
`let ssePool: Pool | null = null`. -/
structure SseModule where
  ssePool : Option Pool

/-- Evaluating the route module's top level: it only declares `ssePool` as
null and defines functions — it never reads `DATABASE_URL`, so loading the
module succeeds whether or not the variable is set. -/
def sseModuleInit (databaseUrl : Option String) : Except String SseModule :=
  match databaseUrl with
  | _ => Except.ok { ssePool := none }

/-- The `getSsePool` function: throw if `DATABASE_URL` is unset; otherwise
create the pool on first use and memoise it. -/
def getSsePool (databaseUrl : Option String) (m : SseModule) :
    Except String (Pool × SseModule) :=
  match databaseUrl with
  | none => Except.error "DATABASE_URL environment variable is not set"
  | some url =>
      match m.ssePool with
      | some p => Except.ok (p, m)
      | none =>
          let p : Pool :=
            { connectionString := url
              connectionTimeoutMillis := 10000
              idleTimeoutMillis := 0
              maxClients := 5 }
          Except.ok (p, { ssePool := some p })

/-- How a stream request's `start` callback begins: either the catch block
emits one `{type:"error"}` event and closes the controller (when
`getSsePool`, `connect` or `LISTEN` threw), or the session reaches its
healthy subscribed state. -/
inductive StartOutcome where
  | failed (events : List Event) : StartOutcome
  | started (s : SessionState) : StartOutcome

/-- Serving one stream request with connect and LISTEN succeeding whenever a
pool exists: `getSsePool` is invoked inside the request's `start` callback,
so a missing `DATABASE_URL` is caught there and answered with the single
`Connection failed` error event. -/
def requestStart (databaseUrl : Option String) (m : SseModule) (t0 : String) :
    SseModule × StartOutcome :=
  match getSsePool databaseUrl m with
  | Except.error _ => (m, StartOutcome.failed [Event.errorEvent "Connection failed"])
  | Except.ok (_, m1) => (m1, StartOutcome.started (initSession t0))

/-! ## Derived notions used by the theorems -/

/-- The event a single action produces on a live, healthy session: a
notification whose payload resolves produces the framed `inventory_update`
event, a heartbeat tick produces a heartbeat, and teardown triggers produce
nothing. -/
def liveEventOf (parse : String → Option Json) : BAction → Option Event
  | BAction.notify p =>
      (parsedPayload parse p).map (fun j =>
        Event.update (spreadInto [("type", Json.str "inventory_update")] (spreadEntries j)))
  | BAction.heartbeatTick t => some (Event.heartbeat t)
  | _ => none

/-- Whether an emitted event is an `inventory_update` event. -/
def isUpdate : Event → Bool
  | Event.update _ => true
  | _ => false

/-- Whether an action is a channel notification. -/
def isNotify : BAction → Bool
  | BAction.notify _ => true
  | _ => false

/-- A concrete connected stream-consumer state used to instantiate
theorems. -/
def rtS0 : RtState Nat :=
  { items := [0], isConnected := true, lastUpdate := none, hasEventSource := true,
    reconnectPending := false, enabled := true, esCreated := 1, esClosed := 0,
    refetchCount := 0, onUpdateCalls := 0 }

/-- A concrete mounted, actively polling state used to instantiate
theorems. -/
def pollS0 : PollState Nat :=
  { data := 0, isLoading := false, error := none, lastUpdate := none, isPolling := true,
    intervalActive := true, isMounted := true, onUpdateCalls := 0, onErrorCalls := 0 }

/-! ## Helper lemmas -/

theorem cleanupRun_fields (s : SessionState) :
    (cleanupRun s).emitted = s.emitted ∧
    (cleanupRun s).isControllerClosed = s.isControllerClosed ∧
    (cleanupRun s).heartbeatActive = s.heartbeatActive ∧
    (cleanupRun s).clientPresent = s.clientPresent := by
  unfold cleanupRun
  by_cases h : s.clientPresent = true <;> simp [h]

theorem step_closed (parse : String → Option Json) (s : SessionState) (a : BAction)
    (h : s.isControllerClosed = true) :
    (step parse s a).emitted = s.emitted ∧
    (step parse s a).isControllerClosed = true := by
  cases a with
  | notify p => simp [step, h]
  | heartbeatTick t =>
      by_cases hb : s.heartbeatActive = true <;> simp [step, h, hb]
  | abort =>
      have hc := cleanupRun_fields { s with isControllerClosed := true }
      simp [step]
      exact ⟨hc.1, hc.2.1⟩
  | clientError =>
      have hc := cleanupRun_fields
        { s with heartbeatActive := false, isControllerClosed := true }
      simp [step]
      exact ⟨hc.1, hc.2.1⟩
  | clientEnd => simp [step]

theorem runSession_closed (parse : String → Option Json) (s : SessionState)
    (acts : List BAction) (h : s.isControllerClosed = true) :
    (runSession parse s acts).emitted = s.emitted ∧
    (runSession parse s acts).isControllerClosed = true := by
  induction acts generalizing s with
  | nil => exact ⟨rfl, h⟩
  | cons a rest ih =>
      have hs := step_closed parse s a h
      have hr := ih (step parse s a) hs.2
      exact ⟨hr.1.trans hs.1, hr.2⟩

theorem step_live (parse : String → Option Json) (s : SessionState) (a : BAction)
    (ha : (liveEventOf parse a).isSome)
    (h1 : s.isControllerClosed = false) (h2 : s.controllerClosed = false)
    (h3 : s.heartbeatActive = true) :
    (step parse s a).emitted = s.emitted ++ (liveEventOf parse a).toList ∧
    (step parse s a).isControllerClosed = false ∧
    (step parse s a).controllerClosed = false ∧
    (step parse s a).heartbeatActive = true := by
  cases a with
  | notify p =>
      cases hp : parsedPayload parse p with
      | none => simp [liveEventOf, hp] at ha
      | some j => simp [step, liveEventOf, hp, h1, h2, h3]
  | heartbeatTick t => simp [step, liveEventOf, h1, h2, h3]
  | abort => simp [liveEventOf] at ha
  | clientError => simp [liveEventOf] at ha
  | clientEnd => simp [liveEventOf] at ha

theorem runSession_live (parse : String → Option Json) (s : SessionState)
    (acts : List BAction) (ha : ∀ a ∈ acts, (liveEventOf parse a).isSome)
    (h1 : s.isControllerClosed = false) (h2 : s.controllerClosed = false)
    (h3 : s.heartbeatActive = true) :
    (runSession parse s acts).emitted = s.emitted ++ acts.filterMap (liveEventOf parse) := by
  induction acts generalizing s with
  | nil => simp [runSession]
  | cons a rest ih =>
      have hstep := step_live parse s a (ha a (List.mem_cons_self a rest)) h1 h2 h3
      have hrest := ih (step parse s a)
        (fun b hb => ha b (List.mem_cons_of_mem a hb)) hstep.2.1 hstep.2.2.1 hstep.2.2.2
      cases he : liveEventOf parse a with
      | none =>
          exact absurd (he ▸ ha a (List.mem_cons_self a rest)) (by simp)
      | some e =>
          simp only [runSession, List.foldl_cons] at hrest ⊢
          rw [hrest, hstep.1, he, List.filterMap_cons, he]
          simp

theorem filterMap_live_update_count (parse : String → Option Json)
    (acts : List BAction) (ha : ∀ a ∈ acts, (liveEventOf parse a).isSome) :
    ((acts.filterMap (liveEventOf parse)).filter isUpdate).length =
      (acts.filter isNotify).length := by
  induction acts with
  | nil => rfl
  | cons a rest ih =>
      have hrest := ih (fun b hb => ha b (List.mem_cons_of_mem a hb))
      cases a with
      | notify p =>
          cases hp : parsedPayload parse p with
          | none =>
              have := ha (BAction.notify p) (List.mem_cons_self _ rest)
              simp [liveEventOf, hp] at this
          | some j =>
              simp [List.filterMap_cons, liveEventOf, hp, isUpdate, isNotify, hrest]
      | heartbeatTick t =>
          simp [List.filterMap_cons, liveEventOf, isUpdate, isNotify, hrest]
      | abort =>
          have := ha BAction.abort (List.mem_cons_self _ rest)
          simp [liveEventOf] at this
      | clientError =>
          have := ha BAction.clientError (List.mem_cons_self _ rest)
          simp [liveEventOf] at this
      | clientEnd =>
          have := ha BAction.clientEnd (List.mem_cons_self _ rest)
          simp [liveEventOf] at this

/-! ## Claim theorems -/

/-- C1 (counterexample): on a healthy session, a client abort followed by a
subscriber-connection error runs the cleanup body twice — two UNLISTEN
attempts and two `client.release()` attempts — because `cleanup` never nulls
`client` and carries no one-shot guard, so the second trigger is not a
no-op. -/
theorem bridge_cleanup_double_run_cex :
    (runSession parse0 (initSession "t0") [BAction.abort, BAction.clientError]).unlistenCalls = 2 ∧
    (runSession parse0 (initSession "t0") [BAction.abort, BAction.clientError]).releaseCalls = 2 := by
  exact ⟨rfl, rfl⟩

/-- C1 (amended): teardown work runs once per trigger, not once per session.
Each individual teardown trigger (abort, or subscriber-connection error)
performs exactly one unsubscribe attempt and one release attempt, and when
both triggers fire on the same session the attempts total two of each, the
repeated pair's failures being swallowed. -/
theorem bridge_cleanup_once_per_trigger (parse : String → Option Json)
    (s : SessionState) (h : s.clientPresent = true) :
    ((step parse s BAction.abort).unlistenCalls = s.unlistenCalls + 1 ∧
     (step parse s BAction.abort).releaseCalls = s.releaseCalls + 1) ∧
    ((step parse s BAction.clientError).unlistenCalls = s.unlistenCalls + 1 ∧
     (step parse s BAction.clientError).releaseCalls = s.releaseCalls + 1) ∧
    ((runSession parse s [BAction.abort, BAction.clientError]).unlistenCalls = s.unlistenCalls + 2 ∧
     (runSession parse s [BAction.abort, BAction.clientError]).releaseCalls = s.releaseCalls + 2) := by
  simp [runSession, step, cleanupRun, h]

theorem bridge_cleanup_once_per_trigger_witness :
    (initSession "t0").clientPresent = true ∧
    (((step parse0 (initSession "t0") BAction.abort).unlistenCalls = (initSession "t0").unlistenCalls + 1 ∧
      (step parse0 (initSession "t0") BAction.abort).releaseCalls = (initSession "t0").releaseCalls + 1) ∧
     ((step parse0 (initSession "t0") BAction.clientError).unlistenCalls = (initSession "t0").unlistenCalls + 1 ∧
      (step parse0 (initSession "t0") BAction.clientError).releaseCalls = (initSession "t0").releaseCalls + 1) ∧
     ((runSession parse0 (initSession "t0") [BAction.abort, BAction.clientError]).unlistenCalls = (initSession "t0").unlistenCalls + 2 ∧
      (runSession parse0 (initSession "t0") [BAction.abort, BAction.clientError]).releaseCalls = (initSession "t0").releaseCalls + 2)) :=
  ⟨rfl, bridge_cleanup_once_per_trigger parse0 (initSession "t0") rfl⟩

/-- C2 (counterexample): the abort handler begins teardown (it sets the
closed flag) but does not cancel the heartbeat interval timer — after an
abort the timer is still scheduled, contradicting "the heartbeat timer is
cancelled at the instant teardown begins" for the client-disconnect
trigger. -/
theorem bridge_abort_leaves_heartbeat_timer_cex :
    (step parse0 (initSession "t0") BAction.abort).isControllerClosed = true ∧
    (step parse0 (initSession "t0") BAction.abort).heartbeatActive = true := by
  exact ⟨rfl, rfl⟩

/-- C2 (amended): once teardown has begun (the closed flag is set), no
further event of any kind — in particular no heartbeat — is ever emitted on
the session; the error and end triggers cancel the heartbeat timer
immediately, while the abort trigger leaves the timer scheduled until its
next tick, which cancels it without emitting. -/
theorem bridge_no_events_after_teardown (parse : String → Option Json)
    (s : SessionState) (acts : List BAction) (h : s.isControllerClosed = true) :
    (runSession parse s acts).emitted = s.emitted ∧
    (step parse s BAction.clientError).heartbeatActive = false ∧
    (step parse s BAction.clientEnd).heartbeatActive = false ∧
    (step parse s BAction.abort).heartbeatActive = s.heartbeatActive ∧
    (∀ t, (step parse s (BAction.heartbeatTick t)).heartbeatActive = false) := by
  refine ⟨(runSession_closed parse s acts h).1, ?_, ?_, ?_, ?_⟩
  · have hc := cleanupRun_fields
      { s with heartbeatActive := false, isControllerClosed := true }
    simp [step]
    exact hc.2.2.1
  · simp [step]
  · have hc := cleanupRun_fields { s with isControllerClosed := true }
    simp [step]
    exact hc.2.2.1
  · intro t
    by_cases hb : s.heartbeatActive = true <;> simp [step, h, hb]

theorem bridge_no_events_after_teardown_witness :
    (step parse0 (initSession "t0") BAction.abort).isControllerClosed = true ∧
    ((runSession parse0 (step parse0 (initSession "t0") BAction.abort)
        [BAction.notify (some "wf"), BAction.heartbeatTick "t1"]).emitted =
      (step parse0 (initSession "t0") BAction.abort).emitted ∧
     (step parse0 (step parse0 (initSession "t0") BAction.abort) BAction.clientError).heartbeatActive = false ∧
     (step parse0 (step parse0 (initSession "t0") BAction.abort) BAction.clientEnd).heartbeatActive = false ∧
     (step parse0 (step parse0 (initSession "t0") BAction.abort) BAction.abort).heartbeatActive =
       (step parse0 (initSession "t0") BAction.abort).heartbeatActive ∧
     (∀ t, (step parse0 (step parse0 (initSession "t0") BAction.abort)
        (BAction.heartbeatTick t)).heartbeatActive = false)) :=
  ⟨rfl, bridge_no_events_after_teardown parse0 (step parse0 (initSession "t0") BAction.abort)
    [BAction.notify (some "wf"), BAction.heartbeatTick "t1"] rfl⟩

/-- C3 (confirmed): while a session is live and healthy, a sequence of
resolving notifications and heartbeat ticks appends to the stream exactly
the framed event of each action, in delivery order — so N well-formed
notifications yield exactly N `inventory_update` events, in order,
interleaved only with the heartbeats. -/
theorem bridge_forwards_live_notifications_in_order (parse : String → Option Json)
    (s : SessionState) (acts : List BAction)
    (ha : ∀ a ∈ acts, (liveEventOf parse a).isSome)
    (h1 : s.isControllerClosed = false) (h2 : s.controllerClosed = false)
    (h3 : s.heartbeatActive = true) :
    (runSession parse s acts).emitted = s.emitted ++ acts.filterMap (liveEventOf parse) ∧
    ((runSession parse s acts).emitted.filter isUpdate).length =
      (s.emitted.filter isUpdate).length + (acts.filter isNotify).length := by
  have hmain := runSession_live parse s acts ha h1 h2 h3
  refine ⟨hmain, ?_⟩
  rw [hmain, List.filter_append, List.length_append,
    filterMap_live_update_count parse acts ha]

theorem bridge_forwards_live_notifications_in_order_witness :
    (∀ a ∈ [BAction.notify (some "wf"), BAction.heartbeatTick "t1", BAction.notify none],
      (liveEventOf parse0 a).isSome) ∧
    ((runSession parse0 (initSession "t0")
        [BAction.notify (some "wf"), BAction.heartbeatTick "t1", BAction.notify none]).emitted =
      (initSession "t0").emitted ++
        [BAction.notify (some "wf"), BAction.heartbeatTick "t1",
         BAction.notify none].filterMap (liveEventOf parse0) ∧
     ((runSession parse0 (initSession "t0")
        [BAction.notify (some "wf"), BAction.heartbeatTick "t1", BAction.notify none]).emitted.filter isUpdate).length =
      ((initSession "t0").emitted.filter isUpdate).length +
        ([BAction.notify (some "wf"), BAction.heartbeatTick "t1",
          BAction.notify none].filter isNotify).length) :=
  ⟨by decide, bridge_forwards_live_notifications_in_order parse0 (initSession "t0")
    [BAction.notify (some "wf"), BAction.heartbeatTick "t1", BAction.notify none]
    (by decide) rfl rfl rfl⟩

/-- C4 (confirmed): a notification whose payload fails to parse leaves the
session state exactly unchanged — no event is emitted and the session is
not terminated — and a subsequently delivered well-formed notification is
still forwarded as a normal `inventory_update` event. -/
theorem bridge_malformed_payload_isolated (parse : String → Option Json)
    (s : SessionState) (pbad pgood : String) (j : Json)
    (hbad : parse pbad = none) (hne : ¬ pbad = "")
    (hgood : parsedPayload parse (some pgood) = some j)
    (h1 : s.isControllerClosed = false) :
    step parse s (BAction.notify (some pbad)) = s ∧
    (runSession parse s [BAction.notify (some pbad), BAction.notify (some pgood)]).emitted =
      s.emitted ++ [Event.update (spreadInto [("type", Json.str "inventory_update")]
        (spreadEntries j))] ∧
    (runSession parse s [BAction.notify (some pbad), BAction.notify (some pgood)]).isControllerClosed = false := by
  have hskip : step parse s (BAction.notify (some pbad)) = s := by
    simp [step, parsedPayload, hbad, hne, h1]
  refine ⟨hskip, ?_, ?_⟩
  · simp only [runSession, List.foldl_cons, List.foldl_nil, hskip]
    simp [step, hgood, h1]
  · simp only [runSession, List.foldl_cons, List.foldl_nil, hskip]
    simp [step, hgood, h1]

theorem bridge_malformed_payload_isolated_witness :
    parse0 "bad" = none ∧ ¬ "bad" = "" ∧
    parsedPayload parse0 (some "wf") =
      some (Json.obj [("operation", Json.str "INSERT"), ("id", Json.str "r1")]) ∧
    (initSession "t0").isControllerClosed = false ∧
    (step parse0 (initSession "t0") (BAction.notify (some "bad")) = initSession "t0" ∧
     (runSession parse0 (initSession "t0")
        [BAction.notify (some "bad"), BAction.notify (some "wf")]).emitted =
      (initSession "t0").emitted ++
        [Event.update (spreadInto [("type", Json.str "inventory_update")]
          (spreadEntries (Json.obj [("operation", Json.str "INSERT"), ("id", Json.str "r1")])))] ∧
     (runSession parse0 (initSession "t0")
        [BAction.notify (some "bad"), BAction.notify (some "wf")]).isControllerClosed = false) :=
  ⟨rfl, by decide, rfl, rfl,
    bridge_malformed_payload_isolated parse0 (initSession "t0") "bad" "wf"
      (Json.obj [("operation", Json.str "INSERT"), ("id", Json.str "r1")])
      rfl (by decide) rfl rfl⟩

/-- C5 (confirmed): every `inventory_update` event triggers a fresh fetch
whose ok result wholesale replaces the local items snapshot; no field of the
event payload is merged, so after two such events against a read endpoint
returning A then B the local snapshot equals B, whatever the two payload
bodies contained. -/
theorem consumer_refetch_replaces_snapshot (α : Type) (s : RtState α)
    (b1 b2 : List (String × Json)) (A B : List α) (t1 t2 : Nat)
    (hs : s.hasEventSource = true)
    (h1 : lookupField b1 "type" = some (Json.str "inventory_update"))
    (h2 : lookupField b2 "type" = some (Json.str "inventory_update")) :
    (cstep s (CAction.message b1 (FetchResult.ok A) t1)).items = A ∧
    (cstep (cstep s (CAction.message b1 (FetchResult.ok A) t1))
      (CAction.message b2 (FetchResult.ok B) t2)).items = B ∧
    (cstep (cstep s (CAction.message b1 (FetchResult.ok A) t1))
      (CAction.message b2 (FetchResult.ok B) t2)).refetchCount = s.refetchCount + 2 ∧
    (cstep (cstep s (CAction.message b1 (FetchResult.ok A) t1))
      (CAction.message b2 (FetchResult.ok B) t2)).lastUpdate = some t2 := by
  simp [cstep, refetch, hs, h1, h2]

theorem consumer_refetch_replaces_snapshot_witness :
    rtS0.hasEventSource = true ∧
    lookupField [("type", Json.str "inventory_update"), ("operation", Json.str "DELETE")]
      "type" = some (Json.str "inventory_update") ∧
    lookupField [("type", Json.str "inventory_update"), ("id", Json.str "r9")]
      "type" = some (Json.str "inventory_update") ∧
    ((cstep rtS0
        (CAction.message [("type", Json.str "inventory_update"), ("operation", Json.str "DELETE")]
          (FetchResult.ok [1, 2]) 5)).items = [1, 2] ∧
     (cstep (cstep rtS0
        (CAction.message [("type", Json.str "inventory_update"), ("operation", Json.str "DELETE")]
          (FetchResult.ok [1, 2]) 5))
        (CAction.message [("type", Json.str "inventory_update"), ("id", Json.str "r9")]
          (FetchResult.ok [7]) 6)).items = [7] ∧
     (cstep (cstep rtS0
        (CAction.message [("type", Json.str "inventory_update"), ("operation", Json.str "DELETE")]
          (FetchResult.ok [1, 2]) 5))
        (CAction.message [("type", Json.str "inventory_update"), ("id", Json.str "r9")]
          (FetchResult.ok [7]) 6)).refetchCount = rtS0.refetchCount + 2 ∧
     (cstep (cstep rtS0
        (CAction.message [("type", Json.str "inventory_update"), ("operation", Json.str "DELETE")]
          (FetchResult.ok [1, 2]) 5))
        (CAction.message [("type", Json.str "inventory_update"), ("id", Json.str "r9")]
          (FetchResult.ok [7]) 6)).lastUpdate = some 6) :=
  ⟨rfl, rfl, rfl,
    consumer_refetch_replaces_snapshot Nat rtS0 _ _ [1, 2] [7] 5 6 rfl rfl rfl⟩

/-- C6 (confirmed): a stream error sets `isConnected` to false, closes the
underlying EventSource, and schedules exactly one reconnect (one pending
timer, no new connection yet); when that timer fires exactly one new
connection is constructed, and once it opens and delivers a `connected`
event the flag is true again. -/
theorem consumer_reconnect_after_drop (α : Type) (s : RtState α)
    (b : List (String × Json)) (r : FetchResult α) (t : Nat)
    (hs : s.hasEventSource = true) (hen : s.enabled = true)
    (hb : lookupField b "type" = some (Json.str "connected")) :
    (cstep s (CAction.errorFired)).isConnected = false ∧
    (cstep s (CAction.errorFired)).hasEventSource = false ∧
    (cstep s (CAction.errorFired)).esClosed = s.esClosed + 1 ∧
    (cstep s (CAction.errorFired)).reconnectPending = true ∧
    (cstep s (CAction.errorFired)).esCreated = s.esCreated ∧
    (cstep (cstep s CAction.errorFired) CAction.timerFire).esCreated = s.esCreated + 1 ∧
    (cstep (cstep s CAction.errorFired) CAction.timerFire).hasEventSource = true ∧
    (cstep (cstep s CAction.errorFired) CAction.timerFire).reconnectPending = false ∧
    (cstep (cstep (cstep s CAction.errorFired) CAction.timerFire) CAction.opened).isConnected = true ∧
    (cstep (cstep (cstep (cstep s CAction.errorFired) CAction.timerFire) CAction.opened)
      (CAction.message b r t)).isConnected = true := by
  simp [cstep, connect, hs, hen, hb]

theorem consumer_reconnect_after_drop_witness :
    rtS0.hasEventSource = true ∧
    rtS0.enabled = true ∧
    lookupField [("type", Json.str "connected"), ("timestamp", Json.str "t5")] "type" =
      some (Json.str "connected") ∧
    ((cstep (cstep (cstep (cstep rtS0
        CAction.errorFired) CAction.timerFire) CAction.opened)
        (CAction.message [("type", Json.str "connected"), ("timestamp", Json.str "t5")]
          FetchResult.notOk 9)).isConnected = true) :=
  ⟨rfl, rfl, rfl,
    (consumer_reconnect_after_drop Nat rtS0
      [("type", Json.str "connected"), ("timestamp", Json.str "t5")]
      FetchResult.notOk 9 rfl rfl rfl).2.2.2.2.2.2.2.2.2⟩

/-- C7 (confirmed): a polling fetch failure captures the error and fires the
error callback but never touches the polling timer; in the fails-only-on-
call-2 scenario, `error` is set after call 2 with the timer still running,
and call 3 succeeds, replaces the data and clears `error`. -/
theorem polling_error_self_heals (α : Type) (s : PollState α)
    (v1 v3 : α) (e : String) (t1 t2 t3 : Nat)
    (hm : s.isMounted = true) (hi : s.intervalActive = true) :
    (pollRefetch (pollRefetch s (Except.ok v1) t1) (Except.error e) t2).error = some e ∧
    (pollRefetch (pollRefetch s (Except.ok v1) t1) (Except.error e) t2).onErrorCalls =
      s.onErrorCalls + 1 ∧
    (pollRefetch (pollRefetch s (Except.ok v1) t1) (Except.error e) t2).intervalActive = true ∧
    (pollRefetch (pollRefetch (pollRefetch s (Except.ok v1) t1) (Except.error e) t2)
      (Except.ok v3) t3).error = none ∧
    (pollRefetch (pollRefetch (pollRefetch s (Except.ok v1) t1) (Except.error e) t2)
      (Except.ok v3) t3).data = v3 ∧
    (pollRefetch (pollRefetch (pollRefetch s (Except.ok v1) t1) (Except.error e) t2)
      (Except.ok v3) t3).intervalActive = true ∧
    (∀ (s' : PollState α) (o : Except String α) (t : Nat),
      (pollRefetch s' o t).intervalActive = s'.intervalActive ∧
      (pollRefetch s' o t).isPolling = s'.isPolling) := by
  refine ⟨?_, ?_, ?_, ?_, ?_, ?_, ?_⟩
  all_goals first
  | (intro s' o t
     by_cases hm' : s'.isMounted = true <;> cases o <;> simp [pollRefetch, hm'])
  | simp [pollRefetch, hm, hi]

theorem polling_error_self_heals_witness :
    pollS0.isMounted = true ∧
    pollS0.intervalActive = true ∧
    ((pollRefetch (pollRefetch pollS0 (Except.ok 1) 1) (Except.error "boom") 2).error =
      some "boom" ∧
     (pollRefetch (pollRefetch (pollRefetch pollS0 (Except.ok 1) 1) (Except.error "boom") 2)
        (Except.ok 3) 3).error = none ∧
     (pollRefetch (pollRefetch (pollRefetch pollS0 (Except.ok 1) 1) (Except.error "boom") 2)
        (Except.ok 3) 3).data = 3 ∧
     (pollRefetch (pollRefetch (pollRefetch pollS0 (Except.ok 1) 1) (Except.error "boom") 2)
        (Except.ok 3) 3).intervalActive = true) := by
  have h := polling_error_self_heals Nat pollS0 1 3 "boom" 1 2 3 rfl rfl
  exact ⟨rfl, rfl, h.1, h.2.2.2.1, h.2.2.2.2.1, h.2.2.2.2.2.1⟩

/-- C9 (confirmed): both stop operations are total and idempotent — the
stream consumer's `disconnect` always leaves the EventSource closed and
null, the reconnect timer cleared and `isConnected` false, and running it
twice equals running it once; the polling consumer's `stopPolling` always
leaves the interval timer cancelled and is likewise idempotent. -/
theorem stop_operations_idempotent (α : Type) (s : RtState α) (p : PollState α) :
    disconnect (disconnect s) = disconnect s ∧
    (disconnect s).hasEventSource = false ∧
    (disconnect s).reconnectPending = false ∧
    (disconnect s).isConnected = false ∧
    cstep (cstep s CAction.disconnect) CAction.disconnect = cstep s CAction.disconnect ∧
    stopPolling (stopPolling p) = stopPolling p ∧
    (stopPolling p).intervalActive = false ∧
    (stopPolling p).isPolling = false := by
  by_cases hE : s.hasEventSource = true <;>
    by_cases hR : s.reconnectPending = true <;>
      simp [cstep, disconnect, stopPolling, hE, hR]

/-- C10 (confirmed): a notification with an absent or empty payload is not
dropped — the bridge still emits an `inventory_update` event whose body is
exactly the single `type` field — and the client consumer's handler treats
that body as an `inventory_update`, so it still triggers a refetch. -/
theorem bridge_empty_payload_still_emits (parse : String → Option Json)
    (s : SessionState) (α : Type) (c : RtState α) (r : FetchResult α) (t : Nat)
    (h : s.isControllerClosed = false) (hc : c.hasEventSource = true) :
    (step parse s (BAction.notify none)).emitted =
      s.emitted ++ [Event.update [("type", Json.str "inventory_update")]] ∧
    (step parse s (BAction.notify (some ""))).emitted =
      s.emitted ++ [Event.update [("type", Json.str "inventory_update")]] ∧
    (cstep c (CAction.message [("type", Json.str "inventory_update")] r t)).refetchCount =
      c.refetchCount + 1 := by
  refine ⟨?_, ?_, ?_⟩
  · simp [step, parsedPayload, h, spreadInto, spreadEntries]
  · simp [step, parsedPayload, h, spreadInto, spreadEntries]
  · cases r <;> simp [cstep, refetch, hc, lookupField]

theorem bridge_empty_payload_still_emits_witness :
    (initSession "t0").isControllerClosed = false ∧
    rtS0.hasEventSource = true ∧
    ((step parse0 (initSession "t0") (BAction.notify none)).emitted =
      (initSession "t0").emitted ++ [Event.update [("type", Json.str "inventory_update")]] ∧
     (step parse0 (initSession "t0") (BAction.notify (some ""))).emitted =
      (initSession "t0").emitted ++ [Event.update [("type", Json.str "inventory_update")]] ∧
     (cstep rtS0
        (CAction.message [("type", Json.str "inventory_update")] (FetchResult.ok [4]) 2)).refetchCount =
      rtS0.refetchCount + 1) :=
  ⟨rfl, rfl, bridge_empty_payload_still_emits parse0 (initSession "t0") Nat rtS0
    (FetchResult.ok [4]) 2 rfl rfl⟩

/-- C8 (counterexample): with `DATABASE_URL` unset, evaluating the stream
route's module top level succeeds (the pool is only declared null), and the
missing variable is instead detected while serving a stream request, which
is answered with a single `Connection failed` error event — a per-request
failure, not a startup-time one. -/
theorem missing_database_url_startup_cex :
    sseModuleInit none = Except.ok { ssePool := none } ∧
    (requestStart none { ssePool := none } "t0").2 =
      StartOutcome.failed [Event.errorEvent "Connection failed"] := by
  exact ⟨rfl, rfl⟩

/-- C8 (amended): when `DATABASE_URL` is not provided, the subsystem does
not fail at startup — module initialisation succeeds regardless of the
environment, because the pool is created lazily — and instead every stream
request fails during request handling: `getSsePool` throws inside the
request's `start` callback before any subscriber connection is acquired,
the module state is left unchanged, and the request receives one error
event before its stream closes. -/
theorem missing_database_url_fails_per_request (databaseUrl : Option String)
    (m : SseModule) (t0 : String) :
    sseModuleInit databaseUrl = Except.ok { ssePool := none } ∧
    requestStart none m t0 =
      (m, StartOutcome.failed [Event.errorEvent "Connection failed"]) ∧
    getSsePool none m = Except.error "DATABASE_URL environment variable is not set" := by
  exact ⟨rfl, rfl, rfl⟩

end Monitor
